import Mathlib

/-!
Verification development for the privileged spawn server (control protocol,
connection multiplexer, pre-fork pipeline, child registry, seccomp filter
builder, and ChildOptions copying).

The definitions below are shallow embeddings of the C++ sources.  Byte
strings are `List Nat`, file descriptors are `Nat`, machine integers are
decoded explicitly from bytes.  Fallible operations return
`Except SpawnError`, where `SpawnError.malformed` stands for the C++
exception `MalformedSpawnPayloadError`.
-/

/-- The only exception thrown by the datagram decoder:
`MalformedSpawnPayloadError`. -/
inductive SpawnError where
  | malformed
deriving DecidableEq, Repr

/-- Modelled from the spec: `SpawnPayload` byte reads (`Parser.hxx` is not in
the sources).  "reading past the end of the payload ... is a
MalformedPayloadError".  `ReadByte` consumes one byte. -/
def readByte (l : List Nat) : Except SpawnError (Nat × List Nat) :=
  match l with
  | [] => .error .malformed
  | b :: rest => .ok (b, rest)

/-- Modelled from the spec: `SpawnPayload::ReadT` consumes the raw bit
pattern of a fixed-size record, here `n` bytes; reading past the end of the
payload is a `MalformedSpawnPayloadError`. -/
def readBytes (n : Nat) (l : List Nat) : Except SpawnError (List Nat × List Nat) :=
  if n ≤ l.length then .ok (l.take n, l.drop n) else .error .malformed

/-- Little-endian value of a byte list (the wire encoding of fixed-width
integers is the host's byte order; the model fixes little-endian, as the
spec permits for this process-local protocol). -/
def leVal (bytes : List Nat) : Nat :=
  match bytes with
  | [] => 0
  | b :: rest => b + 256 * leVal rest

/-- Interpret a 32-bit unsigned value as a signed C `int`. -/
def asInt32 (v : Nat) : Int :=
  if v < 2 ^ 31 then (v : Int) else (v : Int) - 2 ^ 32

/-- Modelled from the spec: `SpawnPayload::ReadInt` reads a fixed-width
(4-byte) host-endian C `int`. -/
def readInt (l : List Nat) : Except SpawnError (Int × List Nat) :=
  match readBytes 4 l with
  | .error e => .error e
  | .ok (bs, rest) => .ok (asInt32 (leVal bs), rest)

/-- Modelled from the spec: reading a `uint16_t` via `ReadT` (2 bytes). -/
def readU16 (l : List Nat) : Except SpawnError (Nat × List Nat) :=
  match readBytes 2 l with
  | .error e => .error e
  | .ok (bs, rest) => .ok (leVal bs, rest)

/-- Modelled from the spec: reading a `uid_t`/`gid_t` via `ReadT` (4 bytes). -/
def readU32 (l : List Nat) : Except SpawnError (Nat × List Nat) :=
  match readBytes 4 l with
  | .error e => .error e
  | .ok (bs, rest) => .ok (leVal bs, rest)

/-- Modelled from the spec: `SpawnPayload::ReadString` reads a NUL-terminated
string (inclusive of the terminator); a missing terminator means the read
runs past the end of the payload, a `MalformedSpawnPayloadError`. -/
def readString (l : List Nat) : Except SpawnError (List Nat × List Nat) :=
  match l with
  | [] => .error .malformed
  | b :: rest =>
    if b = 0 then .ok ([], rest)
    else
      match readString rest with
      | .error e => .error e
      | .ok (s, rest') => .ok (b :: s, rest')

theorem readByte_length {l l' : List Nat} {b : Nat}
    (h : readByte l = .ok (b, l')) : l'.length < l.length := by
  cases l with
  | nil => simp [readByte] at h
  | cons x xs =>
    simp only [readByte, Except.ok.injEq, Prod.mk.injEq] at h
    simp [← h.2]

theorem readBytes_length_le {n : Nat} {l l' s : List Nat}
    (h : readBytes n l = .ok (s, l')) : l'.length ≤ l.length := by
  unfold readBytes at h
  split at h
  · simp only [Except.ok.injEq, Prod.mk.injEq] at h
    obtain ⟨-, rfl⟩ := h
    simp [List.length_drop]
  · exact absurd h (by simp)

theorem readInt_length_le {l l' : List Nat} {v : Int}
    (h : readInt l = .ok (v, l')) : l'.length ≤ l.length := by
  unfold readInt at h
  split at h
  · exact absurd h (by simp)
  · rename_i bs rest heq
    simp only [Except.ok.injEq, Prod.mk.injEq] at h
    obtain ⟨-, rfl⟩ := h
    exact readBytes_length_le heq

theorem readU16_length_le {l l' : List Nat} {v : Nat}
    (h : readU16 l = .ok (v, l')) : l'.length ≤ l.length := by
  unfold readU16 at h
  split at h
  · exact absurd h (by simp)
  · rename_i bs rest heq
    simp only [Except.ok.injEq, Prod.mk.injEq] at h
    obtain ⟨-, rfl⟩ := h
    exact readBytes_length_le heq

theorem readU32_length_le {l l' : List Nat} {v : Nat}
    (h : readU32 l = .ok (v, l')) : l'.length ≤ l.length := by
  unfold readU32 at h
  split at h
  · exact absurd h (by simp)
  · rename_i bs rest heq
    simp only [Except.ok.injEq, Prod.mk.injEq] at h
    obtain ⟨-, rfl⟩ := h
    exact readBytes_length_le heq

theorem readString_length_lt {l l' s : List Nat}
    (h : readString l = .ok (s, l')) : l'.length < l.length := by
  induction l generalizing s l' with
  | nil => simp [readString] at h
  | cons b rest ih =>
    simp only [readString] at h
    split at h
    · simp only [Except.ok.injEq, Prod.mk.injEq] at h
      obtain ⟨-, rfl⟩ := h
      simp
    · split at h
      · exact absurd h (by simp)
      · rename_i s0 rest' heq
        simp only [Except.ok.injEq, Prod.mk.injEq] at h
        obtain ⟨-, rfl⟩ := h
        exact Nat.lt_trans (ih heq) (by simp)

/-- Maximum number of supplementary groups in a `UidGid`
(`uid_gid.groups.max_size()`).  Modelled from the spec: `UidGid.hxx` is not
in the sources; the spec says "supplementary groups as bounded set" and the
decoder rejects counts above the bound. -/
def uidGidMaxGroups : Nat := 32

/-- The uid/gid tuple of a request.  Modelled from the spec: `UidGid.hxx`
is not in the sources; the supplementary groups are kept as the list of
gids that the decoder stored. -/
structure UidGid where
  uid : Nat := 0
  gid : Nat := 0
  groups : List Nat := []
deriving DecidableEq, Repr

/-- Modelled from the spec: `UidGid::IsEmpty` — no uid/gid has been set
(uid and gid both zero). -/
def UidGid.IsEmpty (u : UidGid) : Bool :=
  u.uid == 0 && u.gid == 0

/-- `Read(SpawnPayload &, UidGid &)`: read uid, gid, a one-byte group
count (rejected with `MalformedSpawnPayloadError` when above
`groups.max_size()`), then that many gids. -/
def readUidGid (l : List Nat) : Except SpawnError (UidGid × List Nat) :=
  match readU32 l with
  | .error e => .error e
  | .ok (uid, l) =>
    match readU32 l with
    | .error e => .error e
    | .ok (gid, l) =>
      match readByte l with
      | .error e => .error e
      | .ok (n_groups, l) =>
        if n_groups > uidGidMaxGroups then .error .malformed
        else
          match readBytes (4 * n_groups) l with
          | .error e => .error e
          | .ok (gbytes, l) =>
            .ok (⟨uid, gid, (List.range n_groups).map
                   (fun i => leVal ((gbytes.drop (4 * i)).take 4))⟩, l)

theorem readUidGid_length_le {l l' : List Nat} {u : UidGid}
    (h : readUidGid l = .ok (u, l')) : l'.length ≤ l.length := by
  unfold readUidGid at h
  split at h
  · exact absurd h (by simp)
  · rename_i uid l1 h1
    split at h
    · exact absurd h (by simp)
    · rename_i gid l2 h2
      split at h
      · exact absurd h (by simp)
      · rename_i n l3 h3
        split at h
        · exact absurd h (by simp)
        · split at h
          · exact absurd h (by simp)
          · rename_i gb l4 h4
            simp only [Except.ok.injEq, Prod.mk.injEq] at h
            obtain ⟨-, rfl⟩ := h
            calc l4.length ≤ l3.length := readBytes_length_le h4
              _ ≤ l2.length := le_of_lt (readByte_length h3)
              _ ≤ l1.length := readU32_length_le h2
              _ ≤ l.length := readU32_length_le h1

/-- One `struct rlimit` record: soft and hard limit, 8 bytes each on the
wire (`ReadT` of the raw bit pattern). -/
structure RLimitValue where
  cur : Nat
  max : Nat
deriving DecidableEq, Repr

/-- `Read(SpawnPayload &, ResourceLimits &)`: a one-byte index followed by
the raw `struct rlimit` record; the model records the sequence of
`rlimits.values[i] = data` writes in order. -/
def readRLimit (l : List Nat) : Except SpawnError ((Nat × RLimitValue) × List Nat) :=
  match readByte l with
  | .error e => .error e
  | .ok (i, l) =>
    match readBytes 16 l with
    | .error e => .error e
    | .ok (bs, l) => .ok ((i, ⟨leVal (bs.take 8), leVal ((bs.drop 8).take 8)⟩), l)

theorem readRLimit_length_le {l l' : List Nat} {r : Nat × RLimitValue}
    (h : readRLimit l = .ok (r, l')) : l'.length ≤ l.length := by
  unfold readRLimit at h
  split at h
  · exact absurd h (by simp)
  · rename_i i l1 h1
    split at h
    · exact absurd h (by simp)
    · rename_i bs l2 h2
      simp only [Except.ok.injEq, Prod.mk.injEq] at h
      obtain ⟨-, rfl⟩ := h
      exact le_trans (readBytes_length_le h2) (le_of_lt (readByte_length h1))

/-- One bind-mount record of `NamespaceOptions` (`MountList`): the decoder
constructs `MountList(source, target, false, writable, exec)` and appends
it to the chain in insertion order. -/
structure BindMount where
  source : List Nat
  target : List Nat
  expand : Bool := false
  writable : Bool := false
  exec : Bool := false
deriving DecidableEq, Repr

/-- `NamespaceOptions`: namespace flags, proc/tmpfs/home mount requests,
the ordered bind-mount chain and the optional hostname. -/
structure NamespaceOptions where
  enable_user : Bool := false
  enable_pid : Bool := false
  enable_network : Bool := false
  enable_ipc : Bool := false
  enable_mount : Bool := false
  network_namespace : Option (List Nat) := none
  pivot_root : Option (List Nat) := none
  mount_proc : Bool := false
  writable_proc : Bool := false
  mount_home : Option (List Nat) := none
  home : Option (List Nat) := none
  mount_tmp_tmpfs : Option (List Nat) := none
  mount_tmpfs : Option (List Nat) := none
  mounts : List BindMount := []
  hostname : Option (List Nat) := none
deriving DecidableEq, Repr

/-- `CgroupOptions`: the cgroup name and the `CGROUP_SET` (key, value)
items; the decoder pushes each new item at the head of the chain
(`set.next = p.cgroup.set_head; p.cgroup.set_head = &set`). -/
structure CgroupOptions where
  name : Option (List Nat) := none
  set_head : List (List Nat × List Nat) := []
deriving DecidableEq, Repr

/-- Modelled from the spec: capacity of the argv array of
`PreparedChildProcess` (`Prepared.hxx` is not in the sources);
`Append` returns `false` when the array is full. -/
def argsCapacity : Nat := 32

/-- Modelled from the spec: capacity of the environment array of
`PreparedChildProcess`; `PutEnv` returns `false` when the array is full. -/
def envCapacity : Nat := 64

/-- `PreparedChildProcess`: the typed, owned representation of a requested
child, filled in by the EXEC sub-command decoder.  (`Prepared.hxx` is not
in the sources; the fields are those used by `HandleExecMessage` and
`SpawnChild`, with defaults as the spec describes: `umask` negative means
inherit.) -/
structure PreparedChildProcess where
  args : List (List Nat) := []
  env : List (List Nat) := []
  umask : Int := -1
  stdin_fd : Option Nat := none
  stdout_fd : Option Nat := none
  stderr_fd : Option Nat := none
  control_fd : Option Nat := none
  stderr_path : Option (List Nat) := none
  tty : Bool := false
  refence : Option (List Nat) := none
  ns : NamespaceOptions := {}
  rlimits : List (Nat × RLimitValue) := []
  uid_gid : UidGid := {}
  sched_idle : Bool := false
  ioprio_idle : Bool := false
  forbid_user_ns : Bool := false
  forbid_multicast : Bool := false
  forbid_bind : Bool := false
  no_new_privs : Bool := false
  cgroup : CgroupOptions := {}
  priority : Int := 0
  chroot : Option (List Nat) := none
  chdir : Option (List Nat) := none
  hook_info : Option (List Nat) := none
deriving DecidableEq, Repr

/-- `PreparedChildProcess::Append`: append an argv string, `none` (C++
`false`) when the array is full. -/
def PreparedChildProcess.Append (p : PreparedChildProcess) (arg : List Nat) :
    Option PreparedChildProcess :=
  if p.args.length ≥ argsCapacity then none
  else some { p with args := p.args ++ [arg] }

/-- `PreparedChildProcess::PutEnv`: append a `KEY=VALUE` string, `none`
(C++ `false`) when the array is full. -/
def PreparedChildProcess.PutEnv (p : PreparedChildProcess) (e : List Nat) :
    Option PreparedChildProcess :=
  if p.env.length ≥ envCapacity then none
  else some { p with env := p.env ++ [e] }

/-- The enumerated EXEC sub-commands (`SpawnExecCommand`), exactly the
cases of the `switch` in `SpawnServerConnection::HandleExecMessage`. -/
inductive SpawnExecCommand where
  | ARG | SETENV | UMASK
  | STDIN | STDOUT | STDERR | STDERR_PATH | CONTROL
  | TTY | REFENCE
  | USER_NS | PID_NS | NETWORK_NS | NETWORK_NS_NAME | IPC_NS | MOUNT_NS
  | MOUNT_PROC | WRITABLE_PROC | PIVOT_ROOT | MOUNT_HOME
  | MOUNT_TMP_TMPFS | MOUNT_TMPFS | BIND_MOUNT | HOSTNAME
  | RLIMIT | UID_GID
  | SCHED_IDLE_ | IOPRIO_IDLE
  | FORBID_USER_NS | FORBID_MULTICAST | FORBID_BIND | NO_NEW_PRIVS
  | CGROUP | CGROUP_SET
  | PRIORITY | CHROOT | CHDIR | HOOK_INFO
deriving DecidableEq, Repr

/-- Modelled from the spec: the numeric tag values of `SpawnExecCommand`
(`Protocol.hxx` is not in the sources).  The model assigns consecutive
codes in declaration order; only injectivity and the finiteness of the
enumerated set matter to the claims.  A byte outside the enumerated set
maps to `none`. -/
def SpawnExecCommand.fromByte (b : Nat) : Option SpawnExecCommand :=
  match b with
  | 0 => some .ARG
  | 1 => some .SETENV
  | 2 => some .UMASK
  | 3 => some .STDIN
  | 4 => some .STDOUT
  | 5 => some .STDERR
  | 6 => some .STDERR_PATH
  | 7 => some .CONTROL
  | 8 => some .TTY
  | 9 => some .REFENCE
  | 10 => some .USER_NS
  | 11 => some .PID_NS
  | 12 => some .NETWORK_NS
  | 13 => some .NETWORK_NS_NAME
  | 14 => some .IPC_NS
  | 15 => some .MOUNT_NS
  | 16 => some .MOUNT_PROC
  | 17 => some .WRITABLE_PROC
  | 18 => some .PIVOT_ROOT
  | 19 => some .MOUNT_HOME
  | 20 => some .MOUNT_TMP_TMPFS
  | 21 => some .MOUNT_TMPFS
  | 22 => some .BIND_MOUNT
  | 23 => some .HOSTNAME
  | 24 => some .RLIMIT
  | 25 => some .UID_GID
  | 26 => some .SCHED_IDLE_
  | 27 => some .IOPRIO_IDLE
  | 28 => some .FORBID_USER_NS
  | 29 => some .FORBID_MULTICAST
  | 30 => some .FORBID_BIND
  | 31 => some .NO_NEW_PRIVS
  | 32 => some .CGROUP
  | 33 => some .CGROUP_SET
  | 34 => some .PRIORITY
  | 35 => some .CHROOT
  | 36 => some .CHDIR
  | 37 => some .HOOK_INFO
  | _ => none

/-- `SpawnFdList::Get`: take the next attached file descriptor; requesting
one when none remain throws `MalformedSpawnPayloadError`. -/
def spawnFdListGet (fds : List Nat) : Except SpawnError (Nat × List Nat) :=
  match fds with
  | [] => .error .malformed
  | f :: rest => .ok (f, rest)

/-- One case of the `switch (cmd)` in
`SpawnServerConnection::HandleExecMessage`: given the decoded sub-command,
the remaining payload, the remaining attached fds and the
`PreparedChildProcess` under construction, produce the updated state.
A byte outside the enumerated set (`none`) matches no `case` label of the
source `switch`, which has no `default:` — nothing happens and the loop
continues with the rest of the payload. -/
def execCase (c : Option SpawnExecCommand) (l : List Nat) (fds : List Nat)
    (p : PreparedChildProcess) :
    Except SpawnError (PreparedChildProcess × List Nat × List Nat) :=
  match c with
  | none => .ok (p, l, fds)
  | some .ARG =>
    match readString l with
    | .error e => .error e
    | .ok (s, l) =>
      match p.Append s with
      | none => .error .malformed
      | some p => .ok (p, l, fds)
  | some .SETENV =>
    match readString l with
    | .error e => .error e
    | .ok (s, l) =>
      match p.PutEnv s with
      | none => .error .malformed
      | some p => .ok (p, l, fds)
  | some .UMASK =>
    match readU16 l with
    | .error e => .error e
    | .ok (v, l) => .ok ({ p with umask := (v : Int) }, l, fds)
  | some .STDIN =>
    match spawnFdListGet fds with
    | .error e => .error e
    | .ok (f, fds) => .ok ({ p with stdin_fd := some f }, l, fds)
  | some .STDOUT =>
    match spawnFdListGet fds with
    | .error e => .error e
    | .ok (f, fds) => .ok ({ p with stdout_fd := some f }, l, fds)
  | some .STDERR =>
    match spawnFdListGet fds with
    | .error e => .error e
    | .ok (f, fds) => .ok ({ p with stderr_fd := some f }, l, fds)
  | some .STDERR_PATH =>
    match readString l with
    | .error e => .error e
    | .ok (s, l) => .ok ({ p with stderr_path := some s }, l, fds)
  | some .CONTROL =>
    match spawnFdListGet fds with
    | .error e => .error e
    | .ok (f, fds) => .ok ({ p with control_fd := some f }, l, fds)
  | some .TTY => .ok ({ p with tty := true }, l, fds)
  | some .REFENCE =>
    match readString l with
    | .error e => .error e
    | .ok (s, l) => .ok ({ p with refence := some s }, l, fds)
  | some .USER_NS => .ok ({ p with ns.enable_user := true }, l, fds)
  | some .PID_NS => .ok ({ p with ns.enable_pid := true }, l, fds)
  | some .NETWORK_NS => .ok ({ p with ns.enable_network := true }, l, fds)
  | some .NETWORK_NS_NAME =>
    match readString l with
    | .error e => .error e
    | .ok (s, l) => .ok ({ p with ns.network_namespace := some s }, l, fds)
  | some .IPC_NS => .ok ({ p with ns.enable_ipc := true }, l, fds)
  | some .MOUNT_NS => .ok ({ p with ns.enable_mount := true }, l, fds)
  | some .MOUNT_PROC => .ok ({ p with ns.mount_proc := true }, l, fds)
  | some .WRITABLE_PROC => .ok ({ p with ns.writable_proc := true }, l, fds)
  | some .PIVOT_ROOT =>
    match readString l with
    | .error e => .error e
    | .ok (s, l) => .ok ({ p with ns.pivot_root := some s }, l, fds)
  | some .MOUNT_HOME =>
    match readString l with
    | .error e => .error e
    | .ok (s1, l) =>
      match readString l with
      | .error e => .error e
      | .ok (s2, l) =>
        .ok ({ p with ns.mount_home := some s1, ns.home := some s2 }, l, fds)
  | some .MOUNT_TMP_TMPFS =>
    match readString l with
    | .error e => .error e
    | .ok (s, l) => .ok ({ p with ns.mount_tmp_tmpfs := some s }, l, fds)
  | some .MOUNT_TMPFS =>
    match readString l with
    | .error e => .error e
    | .ok (s, l) => .ok ({ p with ns.mount_tmpfs := some s }, l, fds)
  | some .BIND_MOUNT =>
    match readString l with
    | .error e => .error e
    | .ok (source, l) =>
      match readString l with
      | .error e => .error e
      | .ok (target, l) =>
        match readByte l with
        | .error e => .error e
        | .ok (w, l) =>
          match readByte l with
          | .error e => .error e
          | .ok (x, l) =>
            .ok ({ p with ns.mounts :=
                     p.ns.mounts ++ [⟨source, target, false, w ≠ 0, x ≠ 0⟩] },
                 l, fds)
  | some .HOSTNAME =>
    match readString l with
    | .error e => .error e
    | .ok (s, l) => .ok ({ p with ns.hostname := some s }, l, fds)
  | some .RLIMIT =>
    match readRLimit l with
    | .error e => .error e
    | .ok (r, l) => .ok ({ p with rlimits := p.rlimits ++ [r] }, l, fds)
  | some .UID_GID =>
    match readUidGid l with
    | .error e => .error e
    | .ok (u, l) => .ok ({ p with uid_gid := u }, l, fds)
  | some .SCHED_IDLE_ => .ok ({ p with sched_idle := true }, l, fds)
  | some .IOPRIO_IDLE => .ok ({ p with ioprio_idle := true }, l, fds)
  | some .FORBID_USER_NS => .ok ({ p with forbid_user_ns := true }, l, fds)
  | some .FORBID_MULTICAST => .ok ({ p with forbid_multicast := true }, l, fds)
  | some .FORBID_BIND => .ok ({ p with forbid_bind := true }, l, fds)
  | some .NO_NEW_PRIVS => .ok ({ p with no_new_privs := true }, l, fds)
  | some .CGROUP =>
    match readString l with
    | .error e => .error e
    | .ok (s, l) => .ok ({ p with cgroup.name := some s }, l, fds)
  | some .CGROUP_SET =>
    match readString l with
    | .error e => .error e
    | .ok (k, l) =>
      match readString l with
      | .error e => .error e
      | .ok (v, l) =>
        .ok ({ p with cgroup.set_head := (k, v) :: p.cgroup.set_head }, l, fds)
  | some .PRIORITY =>
    match readInt l with
    | .error e => .error e
    | .ok (v, l) => .ok ({ p with priority := v }, l, fds)
  | some .CHROOT =>
    match readString l with
    | .error e => .error e
    | .ok (s, l) => .ok ({ p with chroot := some s }, l, fds)
  | some .CHDIR =>
    match readString l with
    | .error e => .error e
    | .ok (s, l) => .ok ({ p with chdir := some s }, l, fds)
  | some .HOOK_INFO =>
    match readString l with
    | .error e => .error e
    | .ok (s, l) => .ok ({ p with hook_info := some s }, l, fds)

theorem spawnFdListGet_ok {fds fds' : List Nat} {f : Nat}
    (h : spawnFdListGet fds = .ok (f, fds')) : fds'.length < fds.length := by
  cases fds with
  | nil => simp [spawnFdListGet] at h
  | cons x xs =>
    simp only [spawnFdListGet, Except.ok.injEq, Prod.mk.injEq] at h
    simp [← h.2]


theorem execCase_length_le {c : Option SpawnExecCommand}
    {l fds : List Nat} {p : PreparedChildProcess}
    {r : PreparedChildProcess × List Nat × List Nat}
    (h : execCase c l fds p = .ok r) : r.2.1.length ≤ l.length := by
  unfold execCase at h
  split at h <;> (repeat' split at h) <;>
    (try exact Except.noConfusion h) <;>
    (simp only [Except.ok.injEq] at h; subst h) <;>
    first
      | exact le_refl _
      | (rename_i h1; first
          | exact le_of_lt (readString_length_lt h1)
          | exact readU16_length_le h1
          | exact readInt_length_le h1
          | exact readRLimit_length_le h1
          | exact readUidGid_length_le h1)
      | (rename_i h1 _ _ _; exact le_of_lt (readString_length_lt h1))
      | (rename_i h1 _ _ _ h2;
         exact le_trans (le_of_lt (readString_length_lt h2))
           (le_of_lt (readString_length_lt h1)))
      | (rename_i h1 _ _ _ h2 _ _ _ h3 _ _ _ h4;
         calc _ ≤ _ := le_of_lt (readByte_length h4)
           _ ≤ _ := le_of_lt (readByte_length h3)
           _ ≤ _ := le_of_lt (readString_length_lt h2)
           _ ≤ _ := le_of_lt (readString_length_lt h1))

/-- Fuel-indexed form of the `while (!payload.IsEmpty())` loop of
`SpawnServerConnection::HandleExecMessage`: read a sub-command byte and
dispatch on it until the payload is exhausted.  Every iteration consumes
at least the tag byte, so fuel equal to the payload length always
suffices (`execLoopF_fuel`); the fuel-exhaustion branch is unreachable
from `execLoop` and exists only to make the recursion structural. -/
def execLoopF : Nat → List Nat → List Nat → PreparedChildProcess →
    Except SpawnError (PreparedChildProcess × List Nat)
  | _, [], fds, p => .ok (p, fds)
  | 0, _ :: _, _, _ => .error .malformed
  | fuel + 1, b :: rest, fds, p =>
    match execCase (SpawnExecCommand.fromByte b) rest fds p with
    | .error e => .error e
    | .ok (p', l', fds') => execLoopF fuel l' fds' p'

theorem execLoopF_fuel {n m : Nat} {l fds : List Nat}
    {p : PreparedChildProcess} (hn : l.length ≤ n) (hm : l.length ≤ m) :
    execLoopF n l fds p = execLoopF m l fds p := by
  induction n generalizing m l fds p with
  | zero =>
    cases l with
    | nil => cases m <;> rfl
    | cons b rest => simp at hn
  | succ n ih =>
    cases l with
    | nil => cases m <;> rfl
    | cons b rest =>
      cases m with
      | zero => simp at hm
      | succ m =>
        simp only [execLoopF]
        split
        · rfl
        · rename_i p' l' fds' heq
          have hl' : l'.length ≤ rest.length :=
            execCase_length_le (r := (p', l', fds')) heq
          simp only [List.length_cons, Nat.succ_le_succ_iff] at hn hm
          exact ih (le_trans hl' hn) (le_trans hl' hm)

/-- The `while (!payload.IsEmpty())` loop of
`SpawnServerConnection::HandleExecMessage`: returns the finished
`PreparedChildProcess` and the unconsumed attached fds. -/
def execLoop (l : List Nat) (fds : List Nat) (p : PreparedChildProcess) :
    Except SpawnError (PreparedChildProcess × List Nat) :=
  execLoopF l.length l fds p

/-- The request decoded from an EXEC datagram: the client-chosen id, the
symbolic name, and the prepared child. -/
structure ExecRequest where
  id : Int
  name : List Nat
  p : PreparedChildProcess
deriving DecidableEq, Repr

/-- The decoding part of `SpawnServerConnection::HandleExecMessage`:
`payload.ReadInt(id)`, `name = payload.ReadString()`, then the sub-command
loop. -/
def decodeExec (l : List Nat) (fds : List Nat) :
    Except SpawnError ExecRequest :=
  match readInt l with
  | .error e => .error e
  | .ok (id, l) =>
    match readString l with
    | .error e => .error e
    | .ok (name, l) =>
      match execLoop l fds {} with
      | .error e => .error e
      | .ok (p, _) => .ok ⟨id, name, p⟩

/-- `W_EXITCODE(ret, sig)`: the raw `waitpid` status word synthesized by
the server, `(ret << 8) | sig`. -/
def W_EXITCODE (ret sig : Nat) : Int :=
  ((ret <<< 8) ||| sig : Nat)

/-- A record of which verification routine was consulted for an EXEC
request: the installed `SpawnHook` or the `SpawnConfig` allow-list. -/
inductive VerifyCall where
  | hook
  | config
deriving DecidableEq, Repr

/-- The environment of a `SpawnChild` call: the externals the connection
code calls into.  `hookVerify` models the virtual `SpawnHook::Verify`
(client-supplied policy, may throw); `configVerify` models
`SpawnConfig::Verify` (`Config.hxx` is not in the sources: per the spec it
enforces the allow-list and throws on failure); `spawnResult` models the
outcome of `SpawnChildProcess` (fork/exec pipeline, may throw), returning
the child pid on success. -/
structure SpawnEnv where
  hookInstalled : Bool
  hookVerify : PreparedChildProcess → Except Unit Bool
  configVerify : UidGid → Except Unit Unit
  defaultUidGid : UidGid
  spawnResult : PreparedChildProcess → Except Unit Nat

/-- `SpawnServerProcess::Verify`: `hook != nullptr && hook->Verify(p)`.
The returned list records which verifier ran. -/
def processVerify (env : SpawnEnv) (p : PreparedChildProcess) :
    Except Unit Bool × List VerifyCall :=
  if env.hookInstalled then (env.hookVerify p, [.hook]) else (.ok false, [])

/-- The verification block of `SpawnServerConnection::SpawnChild`:
`if (!process.Verify(p)) config.Verify(p.uid_gid)`, where either call may
throw.  Returns the outcome and the verifiers consulted, in order. -/
def verifyStage (env : SpawnEnv) (p : PreparedChildProcess) :
    Except Unit Unit × List VerifyCall :=
  match processVerify env p with
  | (.error e, calls) => (.error e, calls)
  | (.ok true, calls) => (.ok (), calls)
  | (.ok false, calls) => (env.configVerify p.uid_gid, calls ++ [.config])

/-- A child owned by a connection (`SpawnServerChild`): the client-chosen
id, the pid, and the symbolic name. -/
structure ChildEntry where
  id : Int
  pid : Nat
  name : List Nat
deriving DecidableEq, Repr

/-- The per-connection state: the `id → SpawnServerChild` map, kept as a
list in insertion order. -/
structure ConnState where
  children : List ChildEntry
deriving DecidableEq, Repr

/-- One tracked process of the shared `ChildProcessRegistry`: the pid, the
symbolic name, and the exit listener (the owning connection's
`SpawnServerChild`, identified by its request id; `none` after the
listener is detached). -/
structure RegEntry where
  pid : Nat
  name : List Nat
  listener : Option Int
deriving DecidableEq, Repr

/-- The shared child-process registry state. -/
structure RegState where
  entries : List RegEntry
deriving DecidableEq, Repr

/-- The result of handling one command on a connection: the new connection
and registry states, the EXIT frames sent on this connection (id, status),
the signals delivered (pid, signo), the verifiers consulted, and the fds
adopted as new connections (CONNECT). -/
structure HandleOut where
  conn : ConnState
  reg : RegState
  sent : List (Int × Int)
  signals : List (Nat × Int)
  verifyCalls : List VerifyCall
  newConns : List Nat
deriving DecidableEq, Repr

/-- The effective prepared child after the uid/gid defaulting step of
`SpawnChild`: when the request omitted a uid/gid, the server's default is
substituted. -/
def withDefaultUidGid (env : SpawnEnv) (p : PreparedChildProcess) :
    PreparedChildProcess :=
  if p.uid_gid.IsEmpty then { p with uid_gid := env.defaultUidGid } else p

/-- The tail of `SpawnServerConnection::SpawnChild` after the verification
block: default the uid/gid if the request omitted it (failing with a
synthesized EXIT when the server has no default), call
`SpawnChildProcess`, and on success insert the new `SpawnServerChild` into
the connection's map and `Add` the pid to the registry. -/
def SpawnChildTail (env : SpawnEnv) (conn : ConnState) (reg : RegState)
    (id : Int) (name : List Nat) (p : PreparedChildProcess)
    (calls : List VerifyCall) : HandleOut :=
  if p.uid_gid.IsEmpty ∧ env.defaultUidGid.IsEmpty then
    ⟨conn, reg, [(id, W_EXITCODE 0xff 0)], [], calls, []⟩
  else
    match env.spawnResult (withDefaultUidGid env p) with
    | .error _ => ⟨conn, reg, [(id, W_EXITCODE 0xff 0)], [], calls, []⟩
    | .ok pid =>
      ⟨⟨conn.children ++ [⟨id, pid, name⟩]⟩,
       ⟨reg.entries ++ [⟨pid, name, some id⟩]⟩,
       [], [], calls, []⟩

/-- `SpawnServerConnection::SpawnChild`: verify the requested uid/gid when
one was given (a throw from either verifier synthesizes an EXIT frame with
`W_EXITCODE(0xff, 0)` and discards the request), then run the tail
stage. -/
def SpawnChild (env : SpawnEnv) (conn : ConnState) (reg : RegState)
    (id : Int) (name : List Nat) (p : PreparedChildProcess) : HandleOut :=
  if p.uid_gid.IsEmpty then SpawnChildTail env conn reg id name p []
  else
    match verifyStage env p with
    | (.error _, calls) => ⟨conn, reg, [(id, W_EXITCODE 0xff 0)], [], calls, []⟩
    | (.ok _, calls) => SpawnChildTail env conn reg id name p calls

/-- `SIGTERM`. -/
def SIGTERM : Int := 15

/-- Detach the exit listener of the first registry entry with the given
pid, keeping the entry (and every other entry) tracked. -/
def detachFirst (pid : Nat) : List RegEntry → List RegEntry
  | [] => []
  | e :: rest =>
    if e.pid = pid then { e with listener := none } :: rest
    else e :: detachFirst pid rest

/-- Remove the first registry entry with the given pid. -/
def removeFirst (pid : Nat) : List RegEntry → List RegEntry
  | [] => []
  | e :: rest => if e.pid = pid then rest else e :: removeFirst pid rest

/-- `ChildProcessRegistry::FindByPid`. -/
def RegState.findByPid (r : RegState) (pid : Nat) : Option RegEntry :=
  r.entries.find? (fun e => e.pid == pid)

/-- The registry still tracks the given pid. -/
def RegState.tracks (r : RegState) (pid : Nat) : Prop :=
  ∃ e ∈ r.entries, e.pid = pid

instance (r : RegState) (pid : Nat) : Decidable (r.tracks pid) := by
  unfold RegState.tracks
  infer_instance

/-- `ChildProcessRegistry::Add(pid, name, listener)`. -/
def RegState.add (r : RegState) (pid : Nat) (name : List Nat)
    (listener : Option Int) : RegState :=
  ⟨r.entries ++ [⟨pid, name, listener⟩]⟩

/-- Modelled from the spec: `ChildProcessRegistry::Kill(pid, signo)`
(`Registry.cxx` is not in the sources).  Per the spec, the kill is
best-effort, the exit listener is detached (so the later EXIT frame is
discarded), and "the registry retains tracking so the eventual SIGCHLD is
still reaped"; a pid that is not registered is ignored. -/
def RegState.kill (r : RegState) (pid : Nat) (signo : Int) :
    RegState × List (Nat × Int) :=
  match r.findByPid pid with
  | none => (r, [])
  | some _ => (⟨detachFirst pid r.entries⟩, [(pid, signo)])

/-- Modelled from the spec: the registry reap step for one child
(`Registry.cxx` is not in the sources).  On `SIGCHLD` the reap loop looks
up the pid; if found, it invokes the exit listener — for a listener owned
by a connection this is `SpawnServerChild::OnChildProcessExit`, which (in
the sources) erases the child from the connection's map and sends
`EXIT (id, status)` — then removes the entry; a pid that is not found, or
an entry whose listener was detached, is dropped silently. -/
def RegState.reap (r : RegState) (conn : ConnState) (pid : Nat)
    (status : Int) : RegState × ConnState × List (Int × Int) :=
  match r.findByPid pid with
  | none => (r, conn, [])
  | some e =>
    match e.listener with
    | none => (⟨removeFirst pid r.entries⟩, conn, [])
    | some id =>
      (⟨removeFirst pid r.entries⟩,
       ⟨conn.children.filter (fun c => c.id ≠ id)⟩,
       [(id, status)])

/-- The `children.clear_and_dispose` loop of
`SpawnServerConnection::~SpawnServerConnection`: each owned child is
killed with `SIGTERM` via the shared registry and its listener object
deleted. -/
def killAll (reg : RegState) : List ChildEntry → RegState × List (Nat × Int)
  | [] => (reg, [])
  | c :: rest =>
    let k := reg.kill c.pid SIGTERM
    let k' := killAll k.1 rest
    (k'.1, k.2 ++ k'.2)

/-- `SpawnServerConnection::~SpawnServerConnection`: on teardown, every
owned child is sent `SIGTERM` via the registry and the connection's id map
is disposed. -/
def destroyConnection (conn : ConnState) (reg : RegState) :
    ConnState × RegState × List (Nat × Int) :=
  (⟨[]⟩, (killAll reg conn.children).1, (killAll reg conn.children).2)

/-- The primitive steps of `HandleKillMessage` on the found child, in
execution order, for stating ordering properties. -/
inductive KillAction where
  | eraseChild (id : Int)
  | signal (pid : Nat) (signo : Int)
  | deleteListener (id : Int)
deriving DecidableEq, Repr

/-- `boost::intrusive::set::find` on the connection's id map. -/
def ConnState.findChild (conn : ConnState) (id : Int) : Option ChildEntry :=
  conn.children.find? (fun c => c.id == id)

/-- `children.erase(i)`: erase the found child from the id map. -/
def ConnState.eraseFirst (conn : ConnState) (id : Int) : ConnState :=
  ⟨conn.children.eraseP (fun c => c.id == id)⟩

/-- `SpawnServerConnection::HandleKillMessage`: reject attached fds and
trailing bytes as malformed, read `(id, signo)`, look the id up in the
connection's child map; an unknown id is a no-op.  For a known id the
source executes, in order: `children.erase(i)`,
`child->Kill(registry, signo)` (which sends the signal via the registry),
`delete child` — the `actions` field records that order. -/
def HandleKillMessage (conn : ConnState) (reg : RegState)
    (l : List Nat) (fds : List Nat) :
    Except SpawnError (ConnState × RegState × List (Nat × Int) × List KillAction) :=
  if ¬fds.isEmpty then .error .malformed
  else
    match readInt l with
    | .error e => .error e
    | .ok (id, l) =>
      match readInt l with
      | .error e => .error e
      | .ok (signo, l) =>
        if ¬l.isEmpty then .error .malformed
        else
          match conn.findChild id with
          | none => .ok (conn, reg, [], [])
          | some c =>
            let conn' := conn.eraseFirst id
            let (reg', sigs) := reg.kill c.pid signo
            .ok (conn', reg', sigs,
                 [.eraseChild id, .signal c.pid signo, .deleteListener id])

/-- `SpawnServerConnection::HandleExecMessage` followed by the
`SpawnChild(id, name, std::move(p))` call: decode the EXEC payload, then
run the pre-fork pipeline.  Unconsumed attached fds are closed when the
`SpawnFdList` is dropped. -/
def HandleExecMessage (env : SpawnEnv) (conn : ConnState) (reg : RegState)
    (l : List Nat) (fds : List Nat) : Except SpawnError HandleOut :=
  match decodeExec l fds with
  | .error e => .error e
  | .ok req => .ok (SpawnChild env conn reg req.id req.name req.p)

/-- The top-level request commands. -/
inductive SpawnRequestCommand where
  | CONNECT
  | EXEC
  | KILL
deriving DecidableEq, Repr

/-- Modelled from the spec: the numeric values of `SpawnRequestCommand`
(`Protocol.hxx` is not in the sources); consecutive codes in declaration
order, any other byte maps to `none`. -/
def SpawnRequestCommand.fromByte (b : Nat) : Option SpawnRequestCommand :=
  match b with
  | 0 => some .CONNECT
  | 1 => some .EXEC
  | 2 => some .KILL
  | _ => none

/-- `SpawnServerConnection::HandleMessage(payload, fds)`: shift the
command byte and dispatch.  `CONNECT` demands an empty payload and exactly
one attached fd, which is adopted as a new connection; the command
`switch` has no `default:`, so an unrecognized command byte does
nothing.  (Callers guarantee a non-empty payload — `recvmsg` returned at
least one byte; the model maps the empty case to the decoder error.) -/
def HandleMessage (env : SpawnEnv) (conn : ConnState) (reg : RegState)
    (payload : List Nat) (fds : List Nat) : Except SpawnError HandleOut :=
  match payload with
  | [] => .error .malformed
  | b :: rest =>
    match SpawnRequestCommand.fromByte b with
    | some .CONNECT =>
      if ¬rest.isEmpty ∨ fds.length ≠ 1 then .error .malformed
      else .ok ⟨conn, reg, [], [], [], fds⟩
    | some .EXEC => HandleExecMessage env conn reg rest fds
    | some .KILL =>
      match HandleKillMessage conn reg rest fds with
      | .error e => .error e
      | .ok (conn', reg', sigs, _) => .ok ⟨conn', reg', [], sigs, [], []⟩
    | none => .ok ⟨conn, reg, [], [], [], []⟩

/-- The outcome of one `recvmsg` on the connection socket. -/
inductive RecvResult where
  | closed
  | failed
  | data (payload : List Nat) (fds : List Nat)

/-- Log events emitted by `ReadEventCallback`: the `recvmsg()` failure
message, and the "Malformed spawn payload" warning. -/
inductive LogEvent where
  | recvFailed
  | malformedPayload
deriving DecidableEq, Repr

/-- The observable result of one `ReadEventCallback` invocation. -/
structure CallbackOut where
  removed : Bool
  conn : ConnState
  reg : RegState
  sent : List (Int × Int)
  signals : List (Nat × Int)
  newConns : List Nat
  logs : List LogEvent
deriving DecidableEq, Repr

/-- `SpawnServerConnection::ReadEventCallback`: `recvmsg` returning zero
or an error tears the connection down (`RemoveConnection`, whose disposal
runs the destructor and `SIGTERM`s the owned children); otherwise the
datagram is handled, and a `MalformedSpawnPayloadError` is caught — a
warning is logged and the connection stays registered. -/
def ReadEventCallback (env : SpawnEnv) (conn : ConnState) (reg : RegState)
    (recv : RecvResult) : CallbackOut :=
  match recv with
  | .closed =>
    let (_, reg', sigs) := destroyConnection conn reg
    ⟨true, ⟨[]⟩, reg', [], sigs, [], []⟩
  | .failed =>
    let (_, reg', sigs) := destroyConnection conn reg
    ⟨true, ⟨[]⟩, reg', [], sigs, [], [.recvFailed]⟩
  | .data payload fds =>
    match HandleMessage env conn reg payload fds with
    | .error .malformed => ⟨false, conn, reg, [], [], [], [.malformedPayload]⟩
    | .ok out => ⟨false, out.conn, out.reg, out.sent, out.signals, out.newConns, []⟩

/-- The event loop's view of one connection: dispatch the received
datagrams in order, stopping when the connection is torn down, and
concatenate the observable effects. -/
def processDatagrams (env : SpawnEnv) (conn : ConnState) (reg : RegState) :
    List RecvResult → CallbackOut
  | [] => ⟨false, conn, reg, [], [], [], []⟩
  | r :: rs =>
    let c := ReadEventCallback env conn reg r
    if c.removed then c
    else
      let rest := processDatagrams env c.conn c.reg rs
      ⟨rest.removed, rest.conn, rest.reg, c.sent ++ rest.sent,
       c.signals ++ rest.signals, c.newConns ++ rest.newConns,
       c.logs ++ rest.logs⟩

/-- A seccomp comparison rule over one syscall argument, as produced by
`AddInverted`/`AddRange` for `socket(2)` argument 0: `arg < v`,
`arg == v`, or `arg > v`. -/
inductive SeccompRule where
  | lt (v : Nat)
  | eq (v : Nat)
  | gt (v : Nat)
deriving DecidableEq, Repr

/-- Whether a rule matches a concrete argument value. -/
def SeccompRule.matchesArg : SeccompRule → Nat → Bool
  | .lt v, x => x < v
  | .eq v, x => x == v
  | .gt v, x => x > v

/-- `AddRange(sf, action, syscall, arg, begin, end)`: one equality rule
for every value in the half-open range `[begin, end)`
(`for (auto i = begin; i != end; ++i) sf.AddRule(..., arg == i)`). -/
def AddRange (b e : Nat) : List SeccompRule :=
  (List.range' b (e - b)).map .eq

/-- The `for (auto next = std::next(i); next != end; i = next++)` loop of
`AddInverted` followed by the final `arg > *i` rule: ranges strictly
between consecutive whitelist members, then everything above the largest
member. -/
def invertedTail (i : Nat) : List Nat → List SeccompRule
  | [] => [.gt i]
  | next :: rest => AddRange (i + 1) next ++ invertedTail next rest

/-- `AddInverted(sf, action, syscall, arg, whitelist)`: a rule below the
smallest member, ranges between consecutive members, and a rule above the
largest member — the whitelist is a `std::set`, i.e. sorted ascending and
nonempty at the call site.  (The source dereferences `whitelist.begin()`,
so the empty case never occurs; the model returns no rules for it.) -/
def AddInverted (whitelist : List Nat) : List SeccompRule :=
  match whitelist with
  | [] => []
  | i :: rest => .lt i :: invertedTail i rest

/-- `AF_LOCAL` (= `AF_UNIX`), Linux socket domain 1. -/
def AF_LOCAL : Nat := 1

/-- `AF_INET`, Linux socket domain 2. -/
def AF_INET : Nat := 2

/-- `AF_INET6`, Linux socket domain 10. -/
def AF_INET6 : Nat := 10

/-- `allowed_socket_domains`: the `std::set` {AF_LOCAL, AF_INET, AF_INET6}
in sorted order. -/
def allowed_socket_domains : List Nat := [AF_LOCAL, AF_INET, AF_INET6]

/-- The rule set `BuildSyscallFilter` adds for `socket(2)` with action
`SCMP_ACT_ERRNO(EAFNOSUPPORT)` over argument 0:
`AddInverted(sf, SCMP_ACT_ERRNO(EAFNOSUPPORT), SCMP_SYS(socket), Arg(0),
allowed_socket_domains)`. -/
def socketDomainRules : List SeccompRule :=
  AddInverted allowed_socket_domains

/-- The two possible outcomes of one `::Send<1>(fd, s)` attempt in
`SendExit`: success, failure with `EAGAIN`, or failure with another
error. -/
inductive SendOutcome where
  | ok
  | eagain
  | otherError
deriving DecidableEq, Repr

/-- The parameters of a `ppoll` wait as performed by `SendExit`: the
timeout in seconds and whether every signal is masked during the wait. -/
structure PollCall where
  timeout_sec : Nat
  all_signals_masked : Bool
deriving DecidableEq, Repr

/-- The observable behaviour of one `SpawnServerConnection::SendExit`
frame delivery: how many send attempts were made, the `ppoll` wait (if
any), and whether the connection was torn down (`RemoveConnection`). -/
structure SendExitTrace where
  attempts : Nat
  poll : Option PollCall
  removed : Bool
deriving DecidableEq, Repr

/-- `SpawnServerConnection::SendExit`'s send/retry logic: on `EAGAIN` the
server waits in one `ppoll` with `timespec {10, 0}` and a `sigfillset`
mask (all signals blocked), then — only if the wait reported the fd
writable — retries the send exactly once; any remaining failure reaches
the outer catch, which logs and calls `RemoveConnection`.  `first` is the
outcome of the initial send, `pollReady` whether `ppoll` returned > 0,
`second` the outcome of the retry. -/
def SendExitModel (first : SendOutcome) (pollReady : Bool)
    (second : SendOutcome) : SendExitTrace :=
  match first with
  | .ok => ⟨1, none, false⟩
  | .otherError => ⟨1, none, true⟩
  | .eagain =>
    if pollReady then
      match second with
      | .ok => ⟨2, some ⟨10, true⟩, false⟩
      | _ => ⟨2, some ⟨10, true⟩, true⟩
    else ⟨1, some ⟨10, true⟩, true⟩

/-- `ChildOptions`: the translation-cache-side options copied into a
`PreparedChildProcess` by `CopyTo` (fields as used by
`ChildOptions.cxx`; the `TRANSLATION_ENABLE_JAILCGI` jail wrapper is not
compiled in). -/
structure ChildOptions where
  stderr_path : Option (List Nat) := none
  env : List (List Nat) := []
  cgroup : CgroupOptions := {}
  rlimits : Option (List (Nat × RLimitValue)) := none
  refence : Option (List Nat) := none
  ns : NamespaceOptions := {}
  uid_gid : UidGid := {}
  umask : Int := -1
  stderr_null : Bool := false
  stderr_jailed : Bool := false
  forbid_user_ns : Bool := false
  forbid_multicast : Bool := false
  forbid_bind : Bool := false
  no_new_privs : Bool := false
deriving DecidableEq, Repr

/-- `dest.PutEnv(e)` as called from `CopyTo`, where the boolean result is
discarded: append when there is capacity, otherwise leave unchanged. -/
def putEnvDiscard (p : PreparedChildProcess) (e : List Nat) :
    PreparedChildProcess :=
  match p.PutEnv e with
  | none => p
  | some p' => p'

/-- `ChildOptions::CopyTo(dest)`: copy umask; resolve stderr (jailed path
deferred to the child, otherwise open `stderr_path` — a failed open
throws —, otherwise `/dev/null` when `stderr_null`, a failed open being
ignored); copy env, cgroup, refence, namespace options, rlimits and
uid/gid and the forbid/no-new-privs flags; finally, if user namespaces
are allowed, force `writable_proc` so the child can write its
`/proc/self/{uid,gid}_map`.  `openStderr` and `openDevNull` model the
outcomes of the two `open(2)` calls. -/
def ChildOptions.CopyTo (co : ChildOptions)
    (openStderr : Except Unit Nat) (openDevNull : Option Nat)
    (dest : PreparedChildProcess) : Except Unit PreparedChildProcess :=
  let d0 := { dest with umask := co.umask }
  match
    (if co.stderr_jailed then
       .ok { d0 with stderr_path := co.stderr_path }
     else if co.stderr_path.isSome then
       match openStderr with
       | .error e => .error e
       | .ok fd => .ok { d0 with stderr_fd := some fd }
     else if co.stderr_null then
       match openDevNull with
       | none => .ok d0
       | some fd => .ok { d0 with stderr_fd := some fd }
     else .ok d0 : Except Unit PreparedChildProcess)
  with
  | .error e => .error e
  | .ok d1 =>
    let d2 := co.env.foldl putEnvDiscard d1
    let d3 := { d2 with
      cgroup := co.cgroup,
      refence := co.refence,
      ns := co.ns,
      rlimits := match co.rlimits with
                 | none => d2.rlimits
                 | some r => r,
      uid_gid := co.uid_gid,
      forbid_user_ns := co.forbid_user_ns,
      forbid_multicast := co.forbid_multicast,
      forbid_bind := co.forbid_bind,
      no_new_privs := co.no_new_privs }
    if ¬co.forbid_user_ns then
      .ok { d3 with ns.writable_proc := true }
    else
      .ok d3

/-- An EXEC request fails before fork: the requested uid/gid is rejected
by verification, or no uid/gid is given and the server has no default, or
`SpawnChildProcess` throws. -/
def PreForkFailure (env : SpawnEnv) (p : PreparedChildProcess) : Prop :=
  (p.uid_gid.IsEmpty = false ∧ (verifyStage env p).1 = .error ()) ∨
  (p.uid_gid.IsEmpty = true ∧ env.defaultUidGid.IsEmpty = true) ∨
  env.spawnResult (withDefaultUidGid env p) = .error ()

theorem spawnChild_failure_key (env : SpawnEnv) (conn : ConnState)
    (reg : RegState) (id : Int) (name : List Nat) (p : PreparedChildProcess)
    (h : PreForkFailure env p) :
    ∃ calls, SpawnChild env conn reg id name p =
      ⟨conn, reg, [(id, W_EXITCODE 0xff 0)], [], calls, []⟩ := by
  rcases h with ⟨hE, hv⟩ | ⟨hE, hd⟩ | hs
  · refine ⟨(verifyStage env p).2, ?_⟩
    unfold SpawnChild
    rcases hVS : verifyStage env p with ⟨ve, calls⟩
    cases ve with
    | error e => simp [hE, hVS]
    | ok u => rw [hVS] at hv; exact absurd hv (by simp)
  · refine ⟨[], ?_⟩
    unfold SpawnChild SpawnChildTail
    simp [hE, hd]
  · cases hE : p.uid_gid.IsEmpty with
    | true =>
      cases hd : env.defaultUidGid.IsEmpty with
      | true =>
        refine ⟨[], ?_⟩
        unfold SpawnChild SpawnChildTail
        simp [hE, hd]
      | false =>
        refine ⟨[], ?_⟩
        unfold SpawnChild SpawnChildTail
        simp [hE, hd, hs]
    | false =>
      unfold SpawnChild SpawnChildTail
      rcases hVS : verifyStage env p with ⟨ve, calls⟩
      cases ve with
      | error e => exact ⟨calls, by simp [hE, hVS]⟩
      | ok u => exact ⟨calls, by simp [hE, hVS, hs]⟩

/-- C1: for every EXEC request that fails before fork — the requested
uid/gid is rejected by verification, no uid/gid is given and the server
has no default, or `SpawnChildProcess` throws — the server sends exactly
one EXIT frame carrying the request's id with status `0xff << 8`, and no
child process is registered for that id (the connection's child map and
the registry are unchanged). -/
theorem spawnChild_preFork_failure_sends_single_exit
    (env : SpawnEnv) (conn : ConnState) (reg : RegState)
    (id : Int) (name : List Nat) (p : PreparedChildProcess)
    (h : PreForkFailure env p) :
    (SpawnChild env conn reg id name p).sent = [(id, W_EXITCODE 0xff 0)] ∧
    W_EXITCODE 0xff 0 = ((0xff <<< 8 : Nat) : Int) ∧
    (SpawnChild env conn reg id name p).conn = conn ∧
    (SpawnChild env conn reg id name p).reg = reg := by
  obtain ⟨calls, hkey⟩ := spawnChild_failure_key env conn reg id name p h
  rw [hkey]
  exact ⟨rfl, rfl, rfl, rfl⟩

/-- Witness for C1: a concrete environment whose `SpawnChildProcess`
throws; the EXEC request with id 7 gets exactly one EXIT frame with
status `0xff << 8` and registers nothing. -/
theorem spawnChild_preFork_failure_witness :
    PreForkFailure
      ⟨false, fun _ => .ok false, fun _ => .ok (), ⟨1000, 1000, []⟩,
       fun _ => .error ()⟩ {} ∧
    (SpawnChild
      ⟨false, fun _ => .ok false, fun _ => .ok (), ⟨1000, 1000, []⟩,
       fun _ => .error ()⟩ ⟨[]⟩ ⟨[]⟩ 7 [104] {}).sent =
      [(7, W_EXITCODE 0xff 0)] :=
  ⟨Or.inr (Or.inr rfl),
   (spawnChild_preFork_failure_sends_single_exit _ ⟨[]⟩ ⟨[]⟩ 7 [104] {}
     (Or.inr (Or.inr rfl))).1⟩

theorem spawnChildTail_verifyCalls (env : SpawnEnv) (conn : ConnState)
    (reg : RegState) (id : Int) (name : List Nat) (p : PreparedChildProcess)
    (calls : List VerifyCall) :
    (SpawnChildTail env conn reg id name p calls).verifyCalls = calls := by
  unfold SpawnChildTail
  (repeat' split) <;> rfl

theorem spawnChild_verifyCalls (env : SpawnEnv) (conn : ConnState)
    (reg : RegState) (id : Int) (name : List Nat) (p : PreparedChildProcess)
    (h : p.uid_gid.IsEmpty = false) :
    (SpawnChild env conn reg id name p).verifyCalls = (verifyStage env p).2 := by
  unfold SpawnChild
  rcases hVS : verifyStage env p with ⟨ve, calls⟩
  cases ve with
  | error e => simp [h, hVS]
  | ok u =>
    simp only [h, Bool.false_eq_true, if_false, hVS]
    exact spawnChildTail_verifyCalls env conn reg id name p calls

theorem verifyStage_calls (env : SpawnEnv) (p : PreparedChildProcess) :
    (env.hookInstalled = true → .hook ∈ (verifyStage env p).2) ∧
    (env.hookInstalled = false → .config ∈ (verifyStage env p).2) := by
  unfold verifyStage processVerify
  cases hh : env.hookInstalled with
  | true =>
    simp only [if_true]
    cases hv : env.hookVerify p with
    | error e => simp
    | ok b => cases b <;> simp
  | false => simp

/-- C2: for every EXEC request carrying a non-empty uid/gid, if a hook is
installed the server consults the hook's verify on the prepared child,
and otherwise it consults `config.verify` on the uid/gid; a verification
failure results in a synthesized EXIT frame with status `0xff << 8` and
no spawned process (connection child map and registry unchanged). -/
theorem spawnChild_verification_dispatch
    (env : SpawnEnv) (conn : ConnState) (reg : RegState)
    (id : Int) (name : List Nat) (p : PreparedChildProcess)
    (h : p.uid_gid.IsEmpty = false) :
    (env.hookInstalled = true →
      .hook ∈ (SpawnChild env conn reg id name p).verifyCalls) ∧
    (env.hookInstalled = false →
      .config ∈ (SpawnChild env conn reg id name p).verifyCalls) ∧
    ((verifyStage env p).1 = .error () →
      (SpawnChild env conn reg id name p).sent = [(id, W_EXITCODE 0xff 0)] ∧
      (SpawnChild env conn reg id name p).conn = conn ∧
      (SpawnChild env conn reg id name p).reg = reg) := by
  refine ⟨?_, ?_, ?_⟩
  · intro hh
    rw [spawnChild_verifyCalls env conn reg id name p h]
    exact (verifyStage_calls env p).1 hh
  · intro hh
    rw [spawnChild_verifyCalls env conn reg id name p h]
    exact (verifyStage_calls env p).2 hh
  · intro hv
    obtain ⟨calls, hkey⟩ :=
      spawnChild_failure_key env conn reg id name p (Or.inl ⟨h, hv⟩)
    rw [hkey]
    exact ⟨rfl, rfl, rfl⟩

/-- Witness for C2: a concrete installed hook that rejects the request;
the hook is consulted and the EXEC request with id 1 gets the synthesized
EXIT frame. -/
theorem spawnChild_verification_dispatch_witness :
    ({ uid_gid := ⟨5, 5, []⟩ } : PreparedChildProcess).uid_gid.IsEmpty = false ∧
    VerifyCall.hook ∈
      (SpawnChild ⟨true, fun _ => .error (), fun _ => .ok (), ⟨0, 0, []⟩,
          fun _ => .ok 33⟩ ⟨[]⟩ ⟨[]⟩ 1 [] { uid_gid := ⟨5, 5, []⟩ }).verifyCalls ∧
    (SpawnChild ⟨true, fun _ => .error (), fun _ => .ok (), ⟨0, 0, []⟩,
        fun _ => .ok 33⟩ ⟨[]⟩ ⟨[]⟩ 1 [] { uid_gid := ⟨5, 5, []⟩ }).sent =
      [(1, W_EXITCODE 0xff 0)] :=
  ⟨rfl,
   (spawnChild_verification_dispatch
     ⟨true, fun _ => .error (), fun _ => .ok (), ⟨0, 0, []⟩, fun _ => .ok 33⟩
     ⟨[]⟩ ⟨[]⟩ 1 [] { uid_gid := ⟨5, 5, []⟩ } rfl).1 rfl,
   ((spawnChild_verification_dispatch
     ⟨true, fun _ => .error (), fun _ => .ok (), ⟨0, 0, []⟩, fun _ => .ok 33⟩
     ⟨[]⟩ ⟨[]⟩ 1 [] { uid_gid := ⟨5, 5, []⟩ } rfl).2.2 rfl).1⟩

/-- Counterexample to C3 as stated: an EXEC payload containing the
sub-command tag byte 255, which is outside the enumerated
`SpawnExecCommand` set, decodes successfully — the decoder does not fail
with a fatal error (the `switch` has no `default:` case, so the unknown
tag byte is consumed and ignored). -/
theorem unknown_subtag_not_fatal_cex :
    SpawnExecCommand.fromByte 255 = none ∧
    decodeExec [7, 0, 0, 0, 120, 0, 255] [] = .ok ⟨7, [120], {}⟩ :=
  ⟨rfl, rfl⟩

/-- C3 (amended): a sub-command tag byte outside the enumerated
`SpawnExecCommand` set is not a fatal decoding error; the byte is
consumed, no field is set, and decoding continues with the rest of the
payload as if the byte were absent. -/
theorem unknown_subtag_skipped (b : Nat)
    (h : SpawnExecCommand.fromByte b = none)
    (l fds : List Nat) (p : PreparedChildProcess) :
    execLoop (b :: l) fds p = execLoop l fds p := by
  unfold execLoop
  simp only [List.length_cons, execLoopF, h, execCase]

/-- Witness for C3 (amended): tag byte 255 in front of a payload setting
the tty flag is skipped. -/
theorem unknown_subtag_skipped_witness :
    SpawnExecCommand.fromByte 255 = none ∧
    execLoop [255, 8] [] {} = execLoop [8] [] {} :=
  ⟨rfl, unknown_subtag_skipped 255 rfl [8] [] {}⟩

/-- C4: for every received datagram whose handling raises
`MalformedSpawnPayloadError` (reading past the end of the payload,
overlong group counts, or requesting an attached fd when none remain all
do), the datagram is dropped — connection child map and registry are
unchanged and no frame, signal or new connection is produced — a warning
is logged, the connection is not torn down, and later datagrams are
processed exactly as if the malformed one had never arrived (only the
warning is prepended to the log). -/
theorem malformed_datagram_dropped_connection_continues
    (env : SpawnEnv) (conn : ConnState) (reg : RegState)
    (pl fds : List Nat)
    (h : HandleMessage env conn reg pl fds = .error .malformed) :
    ReadEventCallback env conn reg (.data pl fds) =
      ⟨false, conn, reg, [], [], [], [.malformedPayload]⟩ ∧
    ∀ rs, processDatagrams env conn reg (.data pl fds :: rs) =
      { processDatagrams env conn reg rs with
        logs := .malformedPayload :: (processDatagrams env conn reg rs).logs } := by
  have hcb : ReadEventCallback env conn reg (.data pl fds) =
      ⟨false, conn, reg, [], [], [], [.malformedPayload]⟩ := by
    simp only [ReadEventCallback, h]
  refine ⟨hcb, fun rs => ?_⟩
  conv_lhs => rw [processDatagrams]
  rw [hcb]
  simp

/-- Witness for C4: an EXEC datagram whose `STDIN` sub-command requests
an attached fd while none was attached is malformed; the connection state
is untouched and only the warning is logged. -/
theorem malformed_datagram_dropped_witness :
    HandleMessage
      ⟨false, fun _ => .ok false, fun _ => .ok (), ⟨0, 0, []⟩, fun _ => .ok 1⟩
      ⟨[]⟩ ⟨[]⟩ [1, 7, 0, 0, 0, 120, 0, 3] [] = .error .malformed ∧
    ReadEventCallback
      ⟨false, fun _ => .ok false, fun _ => .ok (), ⟨0, 0, []⟩, fun _ => .ok 1⟩
      ⟨[]⟩ ⟨[]⟩ (.data [1, 7, 0, 0, 0, 120, 0, 3] []) =
      ⟨false, ⟨[]⟩, ⟨[]⟩, [], [], [], [.malformedPayload]⟩ :=
  ⟨rfl,
   (malformed_datagram_dropped_connection_continues
     ⟨false, fun _ => .ok false, fun _ => .ok (), ⟨0, 0, []⟩, fun _ => .ok 1⟩
     ⟨[]⟩ ⟨[]⟩ [1, 7, 0, 0, 0, 120, 0, 3] [] rfl).1⟩

theorem detachFirst_pids (pid : Nat) (es : List RegEntry) :
    (detachFirst pid es).map (fun e => e.pid) = es.map (fun e => e.pid) := by
  induction es with
  | nil => rfl
  | cons e rest ih =>
    unfold detachFirst
    split
    · simp
    · simp [ih]

theorem tracks_iff_mem_pids (r : RegState) (q : Nat) :
    r.tracks q ↔ q ∈ r.entries.map (fun e => e.pid) := by
  unfold RegState.tracks
  simp only [List.mem_map]

theorem kill_preserves_tracks (r : RegState) (pid : Nat) (signo : Int)
    (q : Nat) : ((r.kill pid signo).1).tracks q ↔ r.tracks q := by
  unfold RegState.kill
  split
  · exact Iff.rfl
  · rw [tracks_iff_mem_pids, tracks_iff_mem_pids]
    simp [detachFirst_pids]

theorem kill_tracked_signals (r : RegState) (pid : Nat) (signo : Int)
    (h : r.tracks pid) : (r.kill pid signo).2 = [(pid, signo)] := by
  unfold RegState.kill
  split
  · rename_i hf
    exfalso
    unfold RegState.findByPid at hf
    rw [List.find?_eq_none] at hf
    obtain ⟨e, he, hpe⟩ := h
    exact hf e he (by simp [hpe])
  · rfl

theorem killAll_out (reg : RegState) (cs : List ChildEntry)
    (h : ∀ c ∈ cs, reg.tracks c.pid) :
    (killAll reg cs).2 = cs.map (fun c => (c.pid, SIGTERM)) ∧
    (∀ q, ((killAll reg cs).1).tracks q ↔ reg.tracks q) := by
  induction cs generalizing reg with
  | nil => simp [killAll]
  | cons c rest ih =>
    have hsigs : (reg.kill c.pid SIGTERM).2 = [(c.pid, SIGTERM)] :=
      kill_tracked_signals reg c.pid SIGTERM (h c (by simp))
    have htr := kill_preserves_tracks reg c.pid SIGTERM
    have hrest : ∀ c' ∈ rest, ((reg.kill c.pid SIGTERM).1).tracks c'.pid :=
      fun c' hmem => (htr c'.pid).mpr (h c' (by simp [hmem]))
    obtain ⟨ih1, ih2⟩ := ih (reg.kill c.pid SIGTERM).1 hrest
    constructor
    · simp only [killAll, hsigs, ih1, List.map_cons, List.singleton_append]
    · intro q
      simp only [killAll]
      exact (ih2 q).trans (htr q)

/-- C5: when a connection is destroyed while it still owns N children,
every one of those N children is sent `SIGTERM` via the shared
child-process registry (one signal per owned child, in order), the
connection's id map is emptied, and the registry continues tracking each
of those pids. -/
theorem connection_teardown_sigterm_all
    (conn : ConnState) (reg : RegState)
    (h : ∀ c ∈ conn.children, reg.tracks c.pid) :
    (destroyConnection conn reg).1 = ⟨[]⟩ ∧
    (destroyConnection conn reg).2.2 =
      conn.children.map (fun c => (c.pid, SIGTERM)) ∧
    (∀ c ∈ conn.children, ((destroyConnection conn reg).2.1).tracks c.pid) := by
  obtain ⟨h1, h2⟩ := killAll_out reg conn.children h
  refine ⟨rfl, h1, ?_⟩
  intro c hmem
  exact (h2 c.pid).mpr (h c hmem)

/-- Witness for C5: a connection owning two children, both tracked by the
registry; teardown sends two SIGTERMs and the registry still tracks both
pids. -/
theorem connection_teardown_sigterm_witness :
    (∀ c ∈ (⟨[⟨1, 100, []⟩, ⟨2, 200, []⟩]⟩ : ConnState).children,
      (⟨[⟨100, [], some 1⟩, ⟨200, [], some 2⟩]⟩ : RegState).tracks c.pid) ∧
    (destroyConnection ⟨[⟨1, 100, []⟩, ⟨2, 200, []⟩]⟩
        ⟨[⟨100, [], some 1⟩, ⟨200, [], some 2⟩]⟩).2.2 =
      [(100, SIGTERM), (200, SIGTERM)] :=
  ⟨by decide,
   (connection_teardown_sigterm_all ⟨[⟨1, 100, []⟩, ⟨2, 200, []⟩]⟩
     ⟨[⟨100, [], some 1⟩, ⟨200, [], some 2⟩]⟩ (by decide)).2.1⟩

/-- C6: a well-formed KILL command (two ints, no trailing bytes, no
attached fds) whose id is not in the connection's child map is a no-op:
the connection and registry are unchanged, no signal is delivered, no
action is taken, and dispatching the same datagram through
`HandleMessage` sends no EXIT frame. -/
theorem kill_unknown_id_noop (conn : ConnState) (reg : RegState)
    (pl l1 : List Nat) (id signo : Int)
    (h1 : readInt pl = .ok (id, l1)) (h2 : readInt l1 = .ok (signo, []))
    (h : conn.findChild id = none) :
    HandleKillMessage conn reg pl [] = .ok (conn, reg, [], []) ∧
    ∀ env, HandleMessage env conn reg (2 :: pl) [] =
      .ok ⟨conn, reg, [], [], [], []⟩ := by
  have hk : HandleKillMessage conn reg pl [] = .ok (conn, reg, [], []) := by
    simp [HandleKillMessage, h1, h2, h]
  exact ⟨hk, fun env => by simp [HandleMessage, SpawnRequestCommand.fromByte, hk]⟩

/-- Witness for C6: a KILL for id 5 on a connection owning no children. -/
theorem kill_unknown_id_noop_witness :
    (⟨[]⟩ : ConnState).findChild 5 = none ∧
    HandleKillMessage ⟨[]⟩ ⟨[]⟩ [5, 0, 0, 0, 15, 0, 0, 0] [] =
      .ok (⟨[]⟩, ⟨[]⟩, [], []) :=
  ⟨rfl,
   (kill_unknown_id_noop ⟨[]⟩ ⟨[]⟩ [5, 0, 0, 0, 15, 0, 0, 0] [15, 0, 0, 0]
     5 15 rfl rfl rfl).1⟩

theorem findByPid_detachFirst (pid : Nat) (es : List RegEntry) :
    (detachFirst pid es).find? (fun e => e.pid == pid) =
      (es.find? (fun e => e.pid == pid)).map
        (fun e => { e with listener := none }) := by
  induction es with
  | nil => rfl
  | cons e rest ih =>
    unfold detachFirst
    split
    · rename_i hp
      simp [List.find?, hp]
    · rename_i hp
      have hpb : (e.pid == pid) = false := by simp [hp]
      simp [List.find?, hpb, ih]

/-- Counterexample to C10 as stated: for a concrete well-formed KILL of a
known id, the handler's action trace is erase, then signal, then listener
destruction — the listener object is destroyed *after* signalling, not
before (`children.erase(i); child->Kill(...); delete child;`). -/
theorem kill_listener_destroyed_after_signal_cex :
    HandleKillMessage ⟨[⟨7, 42, [104]⟩]⟩ ⟨[⟨42, [104], some 7⟩]⟩
        [7, 0, 0, 0, 9, 0, 0, 0] [] =
      .ok (⟨[]⟩, ⟨[⟨42, [104], none⟩]⟩, [(42, 9)],
           [.eraseChild 7, .signal 42 9, .deleteListener 7]) ∧
    ¬ ([KillAction.eraseChild 7, .signal 42 9, .deleteListener 7].indexOf
         (KillAction.deleteListener 7) <
       [KillAction.eraseChild 7, .signal 42 9, .deleteListener 7].indexOf
         (KillAction.signal 42 9)) :=
  ⟨rfl, by decide⟩

/-- C10 (amended): for a well-formed KILL whose id is in the connection's
child map, the handler erases the child from the map *before* signalling
and destroys its listener object *after* signalling; the registry
detaches the exit listener as part of the kill, so no EXIT frame for that
id is sent to the client afterwards, even when the process is eventually
reaped. -/
theorem kill_known_id_order_and_no_exit
    (conn : ConnState) (reg : RegState) (pl l1 : List Nat)
    (id signo : Int) (c : ChildEntry)
    (h1 : readInt pl = .ok (id, l1)) (h2 : readInt l1 = .ok (signo, []))
    (hf : conn.findChild id = some c) :
    ∃ reg',
      HandleKillMessage conn reg pl [] =
        .ok (conn.eraseFirst id, reg', (reg.kill c.pid signo).2,
             [.eraseChild id, .signal c.pid signo, .deleteListener id]) ∧
      ∀ status conn2, ((reg'.reap conn2 c.pid status).2.2 = []) := by
  refine ⟨(reg.kill c.pid signo).1, ?_, ?_⟩
  · simp [HandleKillMessage, h1, h2, hf]
  · intro status conn2
    unfold RegState.kill
    rcases hfb : reg.findByPid c.pid with _ | e
    · simp only
      unfold RegState.reap
      rw [hfb]
    · simp only
      unfold RegState.reap RegState.findByPid
      unfold RegState.findByPid at hfb
      simp [findByPid_detachFirst, hfb]

/-- Witness for C10 (amended): KILL id 7 (signal 9) on a connection
owning child (id 7, pid 42); the child is erased, the signal delivered,
and a later reap of pid 42 produces no EXIT frame. -/
theorem kill_known_id_no_exit_witness :
    (⟨[⟨7, 42, [104]⟩]⟩ : ConnState).findChild 7 = some ⟨7, 42, [104]⟩ ∧
    ∃ reg', HandleKillMessage ⟨[⟨7, 42, [104]⟩]⟩ ⟨[⟨42, [104], some 7⟩]⟩
        [7, 0, 0, 0, 9, 0, 0, 0] [] =
        .ok ((⟨[⟨7, 42, [104]⟩]⟩ : ConnState).eraseFirst 7, reg',
             ((⟨[⟨42, [104], some 7⟩]⟩ : RegState).kill 42 9).2,
             [.eraseChild 7, .signal 42 9, .deleteListener 7]) ∧
      ∀ status conn2, ((reg'.reap conn2 42 status).2.2 = []) :=
  ⟨rfl,
   kill_known_id_order_and_no_exit ⟨[⟨7, 42, [104]⟩]⟩ ⟨[⟨42, [104], some 7⟩]⟩
     [7, 0, 0, 0, 9, 0, 0, 0] [9, 0, 0, 0] 7 9 ⟨7, 42, [104]⟩ rfl rfl rfl⟩

/-- C7: the rule set `BuildSyscallFilter` adds for `socket(2)` over
argument 0 — a rule below the smallest whitelist member, equality rules
strictly between consecutive members, and a rule above the largest —
matches exactly the socket domains outside {AF_LOCAL, AF_INET, AF_INET6}:
the union of the generated range rules equals the complement of the
whitelist, and in particular no rule matches a whitelisted domain. -/
theorem socket_filter_complement_of_whitelist :
    ∀ x : Nat, (socketDomainRules.any (fun r => r.matchesArg x)) = true ↔
      x ∉ allowed_socket_domains := by
  intro x
  have hr : socketDomainRules =
      [.lt 1, .eq 3, .eq 4, .eq 5, .eq 6, .eq 7, .eq 8, .eq 9, .gt 10] := rfl
  rw [hr]
  simp [SeccompRule.matchesArg, allowed_socket_domains, AF_LOCAL, AF_INET,
    AF_INET6]
  omega

/-- C8: when an EXIT frame send fails with `EAGAIN`, the server waits in
a single `ppoll` with a 10-second timeout and all signals masked; if the
wait reports readiness it retries the send exactly once (two attempts in
total), and a still-failing retry tears the connection down, while a
timed-out wait tears the connection down after that single attempt. -/
theorem sendExit_eagain_bounded_retry (first : SendOutcome) (pollReady : Bool)
    (second : SendOutcome) (h : first = .eagain) :
    (SendExitModel first pollReady second).poll = some ⟨10, true⟩ ∧
    (pollReady = true →
      (SendExitModel first pollReady second).attempts = 2 ∧
      (second = .ok → (SendExitModel first pollReady second).removed = false) ∧
      (second ≠ .ok → (SendExitModel first pollReady second).removed = true)) ∧
    (pollReady = false →
      (SendExitModel first pollReady second).attempts = 1 ∧
      (SendExitModel first pollReady second).removed = true) := by
  subst h
  cases pollReady <;> cases second <;> simp [SendExitModel]

/-- Witness for C8: first send `EAGAIN`, poll reports ready, retry fails
again — one 10-second all-signals-masked poll, two attempts, connection
removed. -/
theorem sendExit_eagain_bounded_retry_witness :
    (SendExitModel .eagain true .otherError).poll = some ⟨10, true⟩ ∧
    (SendExitModel .eagain true .otherError).attempts = 2 ∧
    (SendExitModel .eagain true .otherError).removed = true :=
  ⟨(sendExit_eagain_bounded_retry .eagain true .otherError rfl).1,
   ((sendExit_eagain_bounded_retry .eagain true .otherError rfl).2.1 rfl).1,
   ((sendExit_eagain_bounded_retry .eagain true .otherError rfl).2.1 rfl).2.2
     (by simp)⟩

/-- C9: for every `ChildOptions` copied into a `PreparedChildProcess` via
`CopyTo`, if `forbid_user_ns` is false the destination's namespace
options end with `writable_proc` true regardless of the source's value;
only when `forbid_user_ns` is true is the source's `writable_proc`
preserved. -/
theorem copyTo_forces_writable_proc (co : ChildOptions)
    (openStderr : Except Unit Nat) (openDevNull : Option Nat)
    (dest d : PreparedChildProcess)
    (h : co.CopyTo openStderr openDevNull dest = .ok d) :
    (co.forbid_user_ns = false → d.ns.writable_proc = true) ∧
    (co.forbid_user_ns = true → d.ns.writable_proc = co.ns.writable_proc) := by
  unfold ChildOptions.CopyTo at h
  (repeat' split at h) <;> (try exact Except.noConfusion h) <;>
    (simp only [Except.ok.injEq] at h; subst h) <;>
    constructor <;> intro hf <;> simp_all

/-- Witness for C9: default `ChildOptions` (user namespaces allowed,
`writable_proc` not requested) copied into a default destination yields
`writable_proc = true`. -/
theorem copyTo_forces_writable_proc_witness :
    ({} : ChildOptions).CopyTo (.ok 0) none {} =
      .ok { ns := { writable_proc := true } } ∧
    ({ ns := { writable_proc := true } } : PreparedChildProcess).ns.writable_proc
      = true :=
  ⟨rfl, (copyTo_forces_writable_proc {} (.ok 0) none {}
    { ns := { writable_proc := true } } rfl).1 rfl⟩
